import Mathlib

/-
Verification of the cluster-client configuration core of a Redis client
library (file src/redis/src/cluster_client.rs): the jittered
exponential-backoff calculator (RetryParams), the parameter unifier
(ClusterParams::from, ClusterParams::with_config) and the seed-node
validator (ClusterClientBuilder::build).

The embedding models the crate as compiled with the features cluster,
cluster-async and tls-native-tls (so no tls-rustls certificate loading and
no cache-aio cache manager); machine integers (u64) are modelled as Nat
with explicit reduction modulo 2 ^ 64 where the source can overflow, which
matches the wrapping semantics of release builds. Trait-object fields
(push sender, DNS resolver, TCP settings) are modelled as type parameters.
-/

set_option autoImplicit false

namespace RedisRs

/-- Modulus of the u64 machine-integer type. -/
def U64MOD : Nat := 2 ^ 64

/-- Reduction of a Nat into the u64 range, the wrapping of release-mode
Rust arithmetic. -/
def wrap64 (n : Nat) : Nat := n % U64MOD

/-- Modelled from the spec: a duration value (std::time::Duration), an
unsigned count of nanoseconds. -/
structure Duration where
  nanos : Nat
  deriving DecidableEq, Repr

/-- Duration built from whole seconds. -/
def Duration.from_secs (s : Nat) : Duration := ⟨s * 1000000000⟩

/-- Duration built from whole milliseconds. -/
def Duration.from_millis (ms : Nat) : Duration := ⟨ms * 1000000⟩

/-- Modelled from the spec: the wire-protocol version enum (RESP2 is the
default, RESP3 opt-in). -/
inductive ProtocolVersion where
  | RESP2
  | RESP3
  deriving DecidableEq, Repr

/-- Modelled from the spec: the transport-security mode enum of the
cluster module. -/
inductive TlsMode where
  | secure
  | insecure
  deriving DecidableEq, Repr

/-- Modelled from the spec: the target address of one node, either a
host and port pair (plain or with transport security) or a local-socket
path. -/
inductive ConnectionAddr where
  | tcp (host : String) (port : Nat)
  | tcpTls (host : String) (port : Nat) (insecure : Bool)
  | unix (path : String)
  deriving DecidableEq, Repr

/-- Modelled from the spec: the security mode derived from an address;
only a secured host and port address carries one. -/
def ConnectionAddr.tls_mode : ConnectionAddr → Option TlsMode
  | .tcpTls _ _ insecure => if insecure then some .insecure else some .secure
  | _ => none

/-- Whether the address is a local-socket address. -/
def ConnectionAddr.isUnix : ConnectionAddr → Bool
  | .unix _ => true
  | _ => false

/-- Modelled from the spec: the redis-level part of a node descriptor:
database index, optional credentials and a wire-protocol version. -/
structure RedisConnectionInfo where
  db : Int
  username : Option String
  password : Option String
  protocol : ProtocolVersion
  deriving DecidableEq, Repr

/-- Modelled from the spec: one seed-node descriptor, the unit of identity
for one node. -/
structure ConnectionInfo where
  addr : ConnectionAddr
  redis : RedisConnectionInfo
  deriving DecidableEq, Repr

/-- Modelled from the spec: the error taxonomy of the library (enum
ErrorKind); the builder only ever produces invalidClientConfig, the
configuration-error kind, while connect, timeout and push-sink failures
belong to the connection layer. -/
inductive ErrorKind where
  | invalidClientConfig
  | ioError
  | timedOut
  | pushSendError
  | authenticationFailed
  deriving DecidableEq, Repr

/-- An error value: a kind together with its detail message. -/
structure RedisError where
  kind : ErrorKind
  detail : String
  deriving DecidableEq, Repr

/-- Retry policy of the cluster client (struct RetryParams). All numeric
fields are u64 values except number_of_retries (u32). -/
structure RetryParams where
  number_of_retries : Nat
  max_wait_time : Nat
  min_wait_time : Nat
  exponent_base : Nat
  factor : Nat
  deriving DecidableEq, Repr

/-- Well-formedness of a RetryParams value: every field fits its machine
integer type. -/
def RetryParams.wf (p : RetryParams) : Prop :=
  p.number_of_retries < 2 ^ 32 ∧ p.max_wait_time < U64MOD ∧
    p.min_wait_time < U64MOD ∧ p.exponent_base < U64MOD ∧ p.factor < U64MOD

instance (p : RetryParams) : Decidable p.wf := by
  unfold RetryParams.wf; infer_instance

/-- Default retry policy (impl Default for RetryParams). -/
def RetryParams.default : RetryParams :=
  { number_of_retries := 16
    max_wait_time := 655360
    min_wait_time := 1280
    exponent_base := 2
    factor := 10 }

/-- Exponential base wait of one retry attempt:
exponent_base.pow(retry) * factor in wrapping u64 arithmetic. -/
def RetryParams.base_wait (p : RetryParams) (retry : Nat) : Nat :=
  wrap64 (p.exponent_base ^ retry * p.factor)

/-- Clamped wait: base_wait.min(max_wait_time).max(min_wait_time + 1),
the addition being wrapping u64 arithmetic. -/
def RetryParams.clamped_wait (p : RetryParams) (retry : Nat) : Nat :=
  max (min (p.base_wait retry) p.max_wait_time) (wrap64 (p.min_wait_time + 1))

/-- Uniform draw from a half-open range (rand random_range): the sampled
value as a function of a seed; none models the panic on an empty range. -/
def random_range (lo hi seed : Nat) : Option Nat :=
  if lo < hi then some (lo + seed % (hi - lo)) else none

/-- Backoff calculator (RetryParams::wait_time_for_retry), with the random
draw made explicit through a seed argument. -/
def RetryParams.wait_time_for_retry (p : RetryParams) (retry seed : Nat) :
    Option Duration :=
  (random_range p.min_wait_time (p.clamped_wait retry) seed).map
    Duration.from_millis

/-- Helper bound: the wrapped base wait never exceeds the mathematical
exponential value. -/
theorem base_wait_le (p : RetryParams) (retry : Nat) :
    p.base_wait retry ≤ p.factor * p.exponent_base ^ retry := by
  have h := Nat.mod_le (p.exponent_base ^ retry * p.factor) U64MOD
  simpa [RetryParams.base_wait, wrap64, Nat.mul_comm] using h

/-- Helper: under well-formedness and a proper range, the sampled range is
never empty because the clamped upper bound exceeds min_wait_time. -/
theorem min_lt_clamped (p : RetryParams) (hwf : p.wf)
    (hlt : p.min_wait_time < p.max_wait_time) (retry : Nat) :
    p.min_wait_time < p.clamped_wait retry := by
  have h1 : p.min_wait_time + 1 < U64MOD := by
    have := hwf.2.1
    omega
  have h2 : wrap64 (p.min_wait_time + 1) = p.min_wait_time + 1 := by
    simp [wrap64, Nat.mod_eq_of_lt h1]
  have h3 : p.min_wait_time + 1 ≤ p.clamped_wait retry := by
    simp [RetryParams.clamped_wait, h2]
  omega

/-- Transport-security parameters of a connection (struct TlsConnParams as
compiled with tls-native-tls: only the hostname-verification toggle). -/
structure TlsConnParams where
  danger_accept_invalid_hostnames : Bool
  deriving DecidableEq, Repr

/-- Builder-phase parameter accumulator (struct BuilderParams). The types
of the push sender, the DNS resolver and the TCP settings are abstract. -/
structure BuilderParams (σ δ τ : Type) where
  password : Option String
  username : Option String
  read_from_replicas : Bool
  tls : Option TlsMode
  danger_accept_invalid_hostnames : Bool
  retries_configuration : RetryParams
  connection_timeout : Option Duration
  response_timeout : Option Duration
  protocol : Option ProtocolVersion
  async_push_sender : Option σ
  tcp_settings : τ
  async_dns_resolver : Option δ

/-- Resolved cluster configuration (struct ClusterParams). -/
structure ClusterParams (σ δ τ : Type) where
  password : Option String
  username : Option String
  read_from_replicas : Bool
  tls : Option TlsMode
  retry_params : RetryParams
  tls_params : Option TlsConnParams
  connection_timeout : Duration
  response_timeout : Option Duration
  protocol : Option ProtocolVersion
  async_push_sender : Option σ
  tcp_settings : τ
  async_dns_resolver : Option δ

/-- Parameter unifier (ClusterParams::from): consumes the builder
parameters and applies defaults; with tls-native-tls there is no
certificate material to load, so the only tls_params source is the
hostname-verification toggle, and the function never fails. -/
def ClusterParams.fromBuilder {σ δ τ : Type} (value : BuilderParams σ δ τ) :
    Except RedisError (ClusterParams σ δ τ) :=
  let tls_params : Option TlsConnParams := none
  let tls_params : Option TlsConnParams :=
    if value.danger_accept_invalid_hostnames then
      let t := tls_params.getD { danger_accept_invalid_hostnames := false }
      some { t with danger_accept_invalid_hostnames := true }
    else
      tls_params
  .ok
    { password := value.password
      username := value.username
      read_from_replicas := value.read_from_replicas
      tls := value.tls
      retry_params := value.retries_configuration
      tls_params := tls_params
      connection_timeout := value.connection_timeout.getD (Duration.from_secs 1)
      response_timeout := value.response_timeout
      protocol := value.protocol
      async_push_sender := value.async_push_sender
      tcp_settings := value.tcp_settings
      async_dns_resolver := value.async_dns_resolver }

/-- Modelled from the spec: per-acquisition cluster configuration
(struct cluster::ClusterConfig), exactly the four fields that
ClusterParams::with_config reads. -/
structure ClusterConfig (σ δ : Type) where
  connection_timeout : Option Duration
  response_timeout : Option Duration
  async_push_sender : Option σ
  async_dns_resolver : Option δ

/-- Per-acquisition override (ClusterParams::with_config). -/
def ClusterParams.with_config {σ δ τ : Type} (p : ClusterParams σ δ τ)
    (config : ClusterConfig σ δ) : ClusterParams σ δ τ :=
  let p :=
    match config.connection_timeout with
    | some connection_timeout => { p with connection_timeout := connection_timeout }
    | none => p
  let p := { p with response_timeout := config.response_timeout }
  let p :=
    match config.async_push_sender with
    | some async_push_sender => { p with async_push_sender := some async_push_sender }
    | none => p
  let p :=
    match config.async_dns_resolver with
    | some async_dns_resolver => { p with async_dns_resolver := some async_dns_resolver }
    | none => p
  p

/-- Builder for a cluster client (struct ClusterClientBuilder): the parsed
seed nodes (or the parse error) and the accumulated parameters. -/
structure ClusterClientBuilder (σ δ τ : Type) where
  initial_nodes : Except RedisError (List ConnectionInfo)
  builder_params : BuilderParams σ δ τ

/-- A built cluster client (struct ClusterClient). -/
structure ClusterClient (σ δ τ : Type) where
  initial_nodes : List ConnectionInfo
  cluster_params : ClusterParams σ δ τ

/-- Consistency loop of ClusterClientBuilder::build over the seed nodes:
per node, in source order, reject a local-socket address, then a password,
username, protocol or TLS-mode value that differs from the established
effective value (a check is skipped when its effective value is none). -/
def checkNodes : List ConnectionInfo → Option String → Option String →
    Option ProtocolVersion → Option TlsMode → Except RedisError Unit
  | [], _, _, _, _ => .ok ()
  | node :: rest, password, username, protocol, tls =>
    if node.addr.isUnix then
      .error ⟨.invalidClientConfig,
        "This library cannot use unix socket because Redis cluster command returns only cluster IP and port."⟩
    else if password.isSome ∧ node.redis.password ≠ password then
      .error ⟨.invalidClientConfig,
        "Cannot use different password among initial nodes."⟩
    else if username.isSome ∧ node.redis.username ≠ username then
      .error ⟨.invalidClientConfig,
        "Cannot use different username among initial nodes."⟩
    else if protocol.isSome ∧ some node.redis.protocol ≠ protocol then
      .error ⟨.invalidClientConfig,
        "Cannot use different protocol among initial nodes."⟩
    else if tls.isSome ∧ node.addr.tls_mode ≠ tls then
      .error ⟨.invalidClientConfig,
        "Cannot use different TLS modes among initial nodes."⟩
    else
      checkNodes rest password username protocol tls

/-- Seed-node validation and client construction
(ClusterClientBuilder::build): reject an empty seed list, resolve the
parameters, back-fill password, username, TLS mode and protocol from
node 0 where the caller left them unset (the back-filled value, possibly
none, becomes the effective check value; a caller-set field checks as
none, skipping its consistency check), then run the consistency loop. -/
def ClusterClientBuilder.build {σ δ τ : Type}
    (builder : ClusterClientBuilder σ δ τ) :
    Except RedisError (ClusterClient σ δ τ) :=
  match builder.initial_nodes with
  | .error e => .error e
  | .ok initial_nodes =>
    match initial_nodes with
    | [] => .error ⟨.invalidClientConfig, "Initial nodes cannot be empty."⟩
    | first_node :: rest =>
      match ClusterParams.fromBuilder builder.builder_params with
      | .error e => .error e
      | .ok cp0 =>
        let cp1 :=
          if cp0.password = none then
            { cp0 with password := first_node.redis.password }
          else cp0
        let password : Option String :=
          if cp0.password = none then first_node.redis.password else none
        let cp2 :=
          if cp1.username = none then
            { cp1 with username := first_node.redis.username }
          else cp1
        let username : Option String :=
          if cp1.username = none then first_node.redis.username else none
        let cp3 :=
          if cp2.tls = none then { cp2 with tls := first_node.addr.tls_mode }
          else cp2
        let tls : Option TlsMode :=
          if cp2.tls = none then first_node.addr.tls_mode else none
        let cp4 :=
          if cp3.protocol = none then
            { cp3 with protocol := some first_node.redis.protocol }
          else cp3
        let protocol : Option ProtocolVersion :=
          if cp3.protocol = none then some first_node.redis.protocol else none
        match checkNodes (first_node :: rest) password username protocol tls with
        | .error e => .error e
        | .ok _ => .ok ⟨first_node :: rest, cp4⟩

/-- Consistency of one node with the effective check values: not a
local-socket address, and agreement with every effective value that is
set. -/
def nodeConsistent (node : ConnectionInfo) (password username : Option String)
    (protocol : Option ProtocolVersion) (tls : Option TlsMode) : Prop :=
  node.addr.isUnix = false ∧
    (password.isSome = true → node.redis.password = password) ∧
    (username.isSome = true → node.redis.username = username) ∧
    (protocol.isSome = true → some node.redis.protocol = protocol) ∧
    (tls.isSome = true → node.addr.tls_mode = tls)

/-- Soundness of the consistency loop: it accepts a list in which every
node is consistent with the effective values. -/
theorem checkNodes_ok_of :
    ∀ (nodes : List ConnectionInfo) (pw un : Option String)
      (pr : Option ProtocolVersion) (tl : Option TlsMode),
      (∀ node ∈ nodes, nodeConsistent node pw un pr tl) →
        checkNodes nodes pw un pr tl = .ok ()
  | [], _, _, _, _, _ => rfl
  | node :: rest, pw, un, pr, tl, h => by
    obtain ⟨hu, hp, hus, hpr, htl⟩ := h node (List.mem_cons_self node rest)
    rw [checkNodes, if_neg (by simp [hu]), if_neg (fun hc => hc.2 (hp hc.1)),
      if_neg (fun hc => hc.2 (hus hc.1)), if_neg (fun hc => hc.2 (hpr hc.1)),
      if_neg (fun hc => hc.2 (htl hc.1))]
    exact checkNodes_ok_of rest pw un pr tl
      (fun n hn => h n (List.mem_cons_of_mem _ hn))

/-- Completeness of the consistency loop: acceptance forces every node to
be consistent with the effective values. -/
theorem nodeConsistent_of_checkNodes_ok :
    ∀ (nodes : List ConnectionInfo) (pw un : Option String)
      (pr : Option ProtocolVersion) (tl : Option TlsMode),
      checkNodes nodes pw un pr tl = .ok () →
        ∀ node ∈ nodes, nodeConsistent node pw un pr tl
  | [], _, _, _, _, _ => by simp
  | node :: rest, pw, un, pr, tl, h => by
    rw [checkNodes] at h
    split_ifs at h with h1 h2 h3 h4 h5
    intro n hn
    rcases List.mem_cons.mp hn with rfl | hmem
    · refine ⟨by simpa using h1, ?_, ?_, ?_, ?_⟩ <;> intro hs
      · by_contra hne
        exact h2 ⟨hs, hne⟩
      · by_contra hne
        exact h3 ⟨hs, hne⟩
      · by_contra hne
        exact h4 ⟨hs, hne⟩
      · by_contra hne
        exact h5 ⟨hs, hne⟩
    · exact nodeConsistent_of_checkNodes_ok rest pw un pr tl h n hmem

/-- Every rejection of the consistency loop is a configuration error. -/
theorem checkNodes_error_kind :
    ∀ (nodes : List ConnectionInfo) (pw un : Option String)
      (pr : Option ProtocolVersion) (tl : Option TlsMode) (e : RedisError),
      checkNodes nodes pw un pr tl = .error e →
        e.kind = .invalidClientConfig
  | [], _, _, _, _, _, h => by simp [checkNodes] at h
  | node :: rest, pw, un, pr, tl, e, h => by
    rw [checkNodes] at h
    split_ifs at h <;>
      first
      | (injection h with h2; subst h2; rfl)
      | exact checkNodes_error_kind rest pw un pr tl e h

/-- Unfolding of build on a non-empty parsed seed list: the effective
check values come from node 0 exactly where the builder left the field
unset, and on acceptance the resolved parameters carry the back-filled
fields. -/
theorem build_cons_eq {σ δ τ : Type} (bp : BuilderParams σ δ τ)
    (first : ConnectionInfo) (rest : List ConnectionInfo) :
    ClusterClientBuilder.build ⟨.ok (first :: rest), bp⟩ =
      match checkNodes (first :: rest)
          (if bp.password = none then first.redis.password else none)
          (if bp.username = none then first.redis.username else none)
          (if bp.protocol = none then some first.redis.protocol else none)
          (if bp.tls = none then first.addr.tls_mode else none) with
      | .error e => .error e
      | .ok _ => .ok ⟨first :: rest,
          { password :=
              if bp.password = none then first.redis.password else bp.password
            username :=
              if bp.username = none then first.redis.username else bp.username
            read_from_replicas := bp.read_from_replicas
            tls := if bp.tls = none then first.addr.tls_mode else bp.tls
            retry_params := bp.retries_configuration
            tls_params :=
              if bp.danger_accept_invalid_hostnames then
                some { danger_accept_invalid_hostnames := true }
              else none
            connection_timeout :=
              bp.connection_timeout.getD (Duration.from_secs 1)
            response_timeout := bp.response_timeout
            protocol :=
              if bp.protocol = none then some first.redis.protocol
              else bp.protocol
            async_push_sender := bp.async_push_sender
            tcp_settings := bp.tcp_settings
            async_dns_resolver := bp.async_dns_resolver }⟩ := by
  by_cases hp : bp.password = none <;> by_cases hu : bp.username = none <;>
    by_cases ht : bp.tls = none <;> by_cases hpr : bp.protocol = none <;>
      simp [ClusterClientBuilder.build, ClusterParams.fromBuilder,
        hp, hu, ht, hpr]

/-- Every failure of build on a parsed seed list is a configuration
error. -/
theorem build_error_kind {σ δ τ : Type} (bp : BuilderParams σ δ τ)
    (nodes : List ConnectionInfo) (e : RedisError)
    (h : ClusterClientBuilder.build ⟨.ok nodes, bp⟩ = .error e) :
    e.kind = .invalidClientConfig := by
  cases nodes with
  | nil =>
    rw [ClusterClientBuilder.build] at h
    injection h with h2
    subst h2
    rfl
  | cons first rest =>
    rw [build_cons_eq] at h
    rcases hc : checkNodes (first :: rest)
        (if bp.password = none then first.redis.password else none)
        (if bp.username = none then first.redis.username else none)
        (if bp.protocol = none then some first.redis.protocol else none)
        (if bp.tls = none then first.addr.tls_mode else none) with e2 | u
    · rw [hc] at h
      injection h with h2
      subst h2
      exact checkNodes_error_kind _ _ _ _ _ _ hc
    · rw [hc] at h
      simp at h

/-- C1: for every RetryParams with min_wait < max_wait and every retry
attempt index and every random draw, wait_time_for_retry returns a
duration of j milliseconds with
min_wait <= j < max (min_wait + 1) (min max_wait (factor * exponent_base ^ retry)),
so the result is always at least min_wait and the sampled range
[min_wait, clamped_wait) is never empty. -/
theorem wait_time_for_retry_in_range (p : RetryParams) (hwf : p.wf)
    (hlt : p.min_wait_time < p.max_wait_time) (retry seed : Nat) :
    ∃ j, p.wait_time_for_retry retry seed = some (Duration.from_millis j) ∧
      p.min_wait_time ≤ j ∧
      j < max (p.min_wait_time + 1)
          (min p.max_wait_time (p.factor * p.exponent_base ^ retry)) ∧
      p.min_wait_time < p.clamped_wait retry := by
  have hcl := min_lt_clamped p hwf hlt retry
  refine ⟨p.min_wait_time + seed % (p.clamped_wait retry - p.min_wait_time),
    ?_, ?_, ?_, hcl⟩
  · simp [RetryParams.wait_time_for_retry, random_range, hcl]
  · omega
  · have hmod : seed % (p.clamped_wait retry - p.min_wait_time) <
        p.clamped_wait retry - p.min_wait_time :=
      Nat.mod_lt _ (by omega)
    have hbw := base_wait_le p retry
    have hwrap : wrap64 (p.min_wait_time + 1) = p.min_wait_time + 1 := by
      have h1 : p.min_wait_time + 1 < U64MOD := by
        have := hwf.2.1
        omega
      simp [wrap64, Nat.mod_eq_of_lt h1]
    have hcw : p.clamped_wait retry =
        max (min (p.base_wait retry) p.max_wait_time) (p.min_wait_time + 1) := by
      rw [RetryParams.clamped_wait, hwrap]
    omega

/-- Witness for C1 at the default retry policy, attempt 3, seed 7. -/
theorem wait_time_for_retry_in_range_witness :
    RetryParams.default.wf ∧
      RetryParams.default.min_wait_time < RetryParams.default.max_wait_time ∧
      ∃ j, RetryParams.default.wait_time_for_retry 3 7 =
          some (Duration.from_millis j) ∧
        RetryParams.default.min_wait_time ≤ j ∧
        j < max (RetryParams.default.min_wait_time + 1)
            (min RetryParams.default.max_wait_time
              (RetryParams.default.factor *
                RetryParams.default.exponent_base ^ 3)) ∧
        RetryParams.default.min_wait_time < RetryParams.default.clamped_wait 3 :=
  ⟨by decide, by decide,
    wait_time_for_retry_in_range RetryParams.default (by decide) (by decide) 3 7⟩

/-- C5: for every well-formed RetryParams with min_wait < max_wait,
wait_time_for_retry is total: at every attempt index (also far past where
the exponential exceeds the 64-bit range, where the wrapping product takes
over) and every draw it returns a value, because the sampled range is
never empty. -/
theorem wait_time_for_retry_total (p : RetryParams) (hwf : p.wf)
    (hlt : p.min_wait_time < p.max_wait_time) (retry seed : Nat) :
    (p.wait_time_for_retry retry seed).isSome = true := by
  have hcl := min_lt_clamped p hwf hlt retry
  simp [RetryParams.wait_time_for_retry, random_range, hcl]

/-- Witness for C5 at the default retry policy and attempt index 200,
where the exponential 2 ^ 200 is far outside the 64-bit range. -/
theorem wait_time_for_retry_total_witness :
    RetryParams.default.wf ∧
      RetryParams.default.min_wait_time < RetryParams.default.max_wait_time ∧
      (RetryParams.default.wait_time_for_retry 200 0).isSome = true :=
  ⟨by decide, by decide,
    wait_time_for_retry_total RetryParams.default (by decide) (by decide) 200 0⟩

/-- A builder-parameter record with every optional field unset, at trivial
pluggable-component types. -/
def builderParamsNone : BuilderParams Unit Unit Unit :=
  { password := none
    username := none
    read_from_replicas := false
    tls := none
    danger_accept_invalid_hostnames := false
    retries_configuration := RetryParams.default
    connection_timeout := none
    response_timeout := none
    protocol := none
    async_push_sender := none
    tcp_settings := ()
    async_dns_resolver := none }

/-- A seed node on a local-socket address. -/
def unixNode : ConnectionInfo :=
  ⟨.unix "/tmp/redis.sock", ⟨0, none, none, .RESP2⟩⟩

/-- Seed node host:6379 with password p. -/
def nodeHost1 : ConnectionInfo :=
  ⟨.tcp "host" 6379, ⟨0, none, some "p", .RESP2⟩⟩

/-- Seed node host2:6379 with password p. -/
def nodeHost2 : ConnectionInfo :=
  ⟨.tcp "host2" 6379, ⟨0, none, some "p", .RESP2⟩⟩

/-- Seed node host3:6379 with no password. -/
def nodeHost3 : ConnectionInfo :=
  ⟨.tcp "host3" 6379, ⟨0, none, none, .RESP2⟩⟩

/-- C6: for every combination of builder parameters, a builder whose
parsed seed-node list is empty fails with the empty-seed configuration
error and produces no ClusterClient value. -/
theorem build_empty_rejected {σ δ τ : Type} (bp : BuilderParams σ δ τ) :
    ClusterClientBuilder.build ⟨.ok [], bp⟩ =
      .error ⟨.invalidClientConfig, "Initial nodes cannot be empty."⟩ := rfl

/-- C7: a parsed seed-node list containing a local-socket node always
makes build fail with a configuration error, regardless of the builder
parameters and of every credential, protocol or security field of any
node. -/
theorem build_unix_rejected {σ δ τ : Type} (bp : BuilderParams σ δ τ)
    (nodes : List ConnectionInfo) (node : ConnectionInfo)
    (hmem : node ∈ nodes) (hux : node.addr.isUnix = true) :
    ∃ e, ClusterClientBuilder.build ⟨.ok nodes, bp⟩ = .error e ∧
      e.kind = .invalidClientConfig := by
  rcases hb : ClusterClientBuilder.build ⟨.ok nodes, bp⟩ with e | cc
  · exact ⟨e, rfl, build_error_kind bp nodes e hb⟩
  · exfalso
    cases nodes with
    | nil => cases hmem
    | cons first rest =>
      rw [build_cons_eq] at hb
      rcases hc : checkNodes (first :: rest)
          (if bp.password = none then first.redis.password else none)
          (if bp.username = none then first.redis.username else none)
          (if bp.protocol = none then some first.redis.protocol else none)
          (if bp.tls = none then first.addr.tls_mode else none) with e2 | u
      · rw [hc] at hb
        simp at hb
      · have hcons :=
          (nodeConsistent_of_checkNodes_ok _ _ _ _ _ hc node hmem).1
        rw [hux] at hcons
        cases hcons

/-- Witness for C7: a one-element seed list holding only a local-socket
node is rejected. -/
theorem build_unix_rejected_witness :
    unixNode ∈ [unixNode] ∧ unixNode.addr.isUnix = true ∧
      ∃ e, ClusterClientBuilder.build ⟨.ok [unixNode], builderParamsNone⟩ =
          .error e ∧ e.kind = .invalidClientConfig :=
  ⟨List.mem_singleton_self _, rfl,
    build_unix_rejected builderParamsNone [unixNode] unixNode
      (List.mem_singleton_self _) rfl⟩

/-- C4: with seed nodes host:6379 (password p), host2:6379 (password p)
and host3:6379 (no password) and no caller-supplied password, build fails
with the credential-mismatch configuration error: node 0 fixes the
effective password to p and the unset password of node 3 counts as
differing. -/
theorem build_unset_password_counts_as_differing :
    ClusterClientBuilder.build ⟨.ok [nodeHost1, nodeHost2, nodeHost3],
        builderParamsNone⟩ =
      .error ⟨.invalidClientConfig,
        "Cannot use different password among initial nodes."⟩ := rfl

/-- C10: with_config overwrites response_timeout unconditionally from the
config (erasing a previously configured value when the config leaves it
unset), overwrites connection_timeout, the push sender and the DNS
resolver only when the config supplies them, and leaves every other field
unchanged. -/
theorem with_config_spec {σ δ τ : Type} (p : ClusterParams σ δ τ)
    (c : ClusterConfig σ δ) :
    (p.with_config c).response_timeout = c.response_timeout ∧
      (p.with_config c).connection_timeout =
        c.connection_timeout.getD p.connection_timeout ∧
      (p.with_config c).async_push_sender =
        (match c.async_push_sender with
          | some s => some s
          | none => p.async_push_sender) ∧
      (p.with_config c).async_dns_resolver =
        (match c.async_dns_resolver with
          | some r => some r
          | none => p.async_dns_resolver) ∧
      (p.with_config c).password = p.password ∧
      (p.with_config c).username = p.username ∧
      (p.with_config c).read_from_replicas = p.read_from_replicas ∧
      (p.with_config c).tls = p.tls ∧
      (p.with_config c).retry_params = p.retry_params ∧
      (p.with_config c).tls_params = p.tls_params ∧
      (p.with_config c).protocol = p.protocol ∧
      (p.with_config c).tcp_settings = p.tcp_settings := by
  obtain ⟨ct, rt, ps, dr⟩ := c
  cases ct <;> cases ps <;> cases dr <;>
    simp [ClusterParams.with_config]

/-- C8: the parameter unifier keeps the caller connection timeout and
retry configuration when set, and falls back to one second and to the
default retry policy of 16 retries, min wait 1280, max wait 655360,
exponent base 2 and factor 10 when unset. -/
theorem fromBuilder_defaults {σ δ τ : Type} (bp : BuilderParams σ δ τ) :
    ∃ cp, ClusterParams.fromBuilder bp = .ok cp ∧
      cp.retry_params = bp.retries_configuration ∧
      cp.connection_timeout =
        bp.connection_timeout.getD (Duration.from_secs 1) ∧
      (bp.connection_timeout = none →
        cp.connection_timeout = Duration.from_secs 1) ∧
      (∀ d, bp.connection_timeout = some d → cp.connection_timeout = d) ∧
      (bp.retries_configuration = RetryParams.default →
        cp.retry_params =
          { number_of_retries := 16
            max_wait_time := 655360
            min_wait_time := 1280
            exponent_base := 2
            factor := 10 }) := by
  refine ⟨_, rfl, rfl, rfl, ?_, ?_, ?_⟩
  · intro h
    simp [h]
  · intro d h
    simp [h]
  · intro h
    simp [h, RetryParams.default]

/-- Witness for C8 at the all-unset builder parameters. -/
theorem fromBuilder_defaults_witness :
    ∃ cp, ClusterParams.fromBuilder builderParamsNone = .ok cp ∧
      cp.retry_params = builderParamsNone.retries_configuration ∧
      cp.connection_timeout =
        builderParamsNone.connection_timeout.getD (Duration.from_secs 1) ∧
      (builderParamsNone.connection_timeout = none →
        cp.connection_timeout = Duration.from_secs 1) ∧
      (∀ d, builderParamsNone.connection_timeout = some d →
        cp.connection_timeout = d) ∧
      (builderParamsNone.retries_configuration = RetryParams.default →
        cp.retry_params =
          { number_of_retries := 16
            max_wait_time := 655360
            min_wait_time := 1280
            exponent_base := 2
            factor := 10 }) :=
  fromBuilder_defaults builderParamsNone

/-- Builder parameters with only the trust-any-hostname toggle enabled. -/
def builderParamsDanger : BuilderParams Unit Unit Unit :=
  { builderParamsNone with danger_accept_invalid_hostnames := true }

/-- Counterexample to C9: with the trust-any-hostname toggle enabled, no
certificate material and no TLS mode set, the resolved parameters carry
the toggle in tls_params but their security mode stays none, so the
toggle does not force security mode on as the claim states. -/
theorem fromBuilder_danger_counterexample :
    builderParamsDanger.danger_accept_invalid_hostnames = true ∧
      builderParamsDanger.tls = none ∧
      (ClusterParams.fromBuilder builderParamsDanger).map
          (fun cp => (cp.tls, cp.tls_params)) =
        .ok (none, some { danger_accept_invalid_hostnames := true }) :=
  ⟨rfl, rfl, rfl⟩

/-- C9 (amended): with the trust-any-hostname toggle enabled, the
resolved parameters always carry tls_params with the toggle set, even
when no certificate material was supplied; the security mode itself is
not forced on and stays exactly the builder TLS setting. -/
theorem fromBuilder_danger_amended {σ δ τ : Type} (bp : BuilderParams σ δ τ)
    (h : bp.danger_accept_invalid_hostnames = true) :
    ∃ cp, ClusterParams.fromBuilder bp = .ok cp ∧
      cp.tls_params = some { danger_accept_invalid_hostnames := true } ∧
      cp.tls = bp.tls := by
  refine ⟨_, rfl, ?_, rfl⟩
  simp [h]

/-- Witness for the amended C9 at the toggle-only builder parameters. -/
theorem fromBuilder_danger_amended_witness :
    builderParamsDanger.danger_accept_invalid_hostnames = true ∧
      ∃ cp, ClusterParams.fromBuilder builderParamsDanger = .ok cp ∧
        cp.tls_params = some { danger_accept_invalid_hostnames := true } ∧
        cp.tls = builderParamsDanger.tls :=
  ⟨rfl, fromBuilder_danger_amended builderParamsDanger rfl⟩

/-- Helper: a node is consistent with the effective values derived from
node 0 whenever, for each field, it either agrees with node 0 or the
caller set the field (which turns the check off). -/
theorem consistent_of_agree {σ δ τ : Type} (bp : BuilderParams σ δ τ)
    (first n : ConnectionInfo) (h1 : n.addr.isUnix = false)
    (h2 : n.redis.password = first.redis.password ∨ bp.password ≠ none)
    (h3 : n.redis.username = first.redis.username ∨ bp.username ≠ none)
    (h4 : n.redis.protocol = first.redis.protocol ∨ bp.protocol ≠ none)
    (h5 : n.addr.tls_mode = first.addr.tls_mode ∨ bp.tls ≠ none) :
    nodeConsistent n
      (if bp.password = none then first.redis.password else none)
      (if bp.username = none then first.redis.username else none)
      (if bp.protocol = none then some first.redis.protocol else none)
      (if bp.tls = none then first.addr.tls_mode else none) := by
  refine ⟨h1, ?_, ?_, ?_, ?_⟩
  · by_cases hb : bp.password = none
    · rcases h2 with h2 | hne
      · simp [hb, h2]
      · exact absurd hb hne
    · simp [hb]
  · by_cases hb : bp.username = none
    · rcases h3 with h3 | hne
      · simp [hb, h3]
      · exact absurd hb hne
    · simp [hb]
  · by_cases hb : bp.protocol = none
    · rcases h4 with h4 | hne
      · simp [hb, h4]
      · exact absurd hb hne
    · simp [hb]
  · by_cases hb : bp.tls = none
    · rcases h5 with h5 | hne
      · simp [hb, h5]
      · exact absurd hb hne
    · simp [hb]

/-- Seed nodes with pairwise distinct passwords. -/
def nodeD1 : ConnectionInfo := ⟨.tcp "h1" 6379, ⟨0, none, some "p1", .RESP2⟩⟩

/-- Second node of the distinct-password list. -/
def nodeD2 : ConnectionInfo := ⟨.tcp "h2" 6379, ⟨0, none, some "p2", .RESP2⟩⟩

/-- Third node of the distinct-password list. -/
def nodeD3 : ConnectionInfo := ⟨.tcp "h3" 6379, ⟨0, none, some "p3", .RESP2⟩⟩

/-- Seed node host4:6379 with password p, completing an all-equal-password
list. -/
def nodeHost4 : ConnectionInfo :=
  ⟨.tcp "host4" 6379, ⟨0, none, some "p", .RESP2⟩⟩

/-- Nodes sharing one password but with two distinct usernames. -/
def nodeU1 : ConnectionInfo :=
  ⟨.tcp "h1" 6379, ⟨0, some "user1", some "p", .RESP2⟩⟩

/-- Second node of the distinct-username list. -/
def nodeU2 : ConnectionInfo :=
  ⟨.tcp "h2" 6379, ⟨0, some "user2", some "p", .RESP2⟩⟩

/-- Third node of the distinct-username list. -/
def nodeU3 : ConnectionInfo :=
  ⟨.tcp "h3" 6379, ⟨0, some "user1", some "p", .RESP2⟩⟩

/-- Counterexample to C2: a three-node list in which every node password
equals that of node 0 but the usernames disagree; the claim asserts build
succeeds on every such list, yet build fails on the username check. -/
theorem build_password_validation_counterexample :
    (nodeU2.redis.password = nodeU1.redis.password ∧
      nodeU3.redis.password = nodeU1.redis.password ∧
      builderParamsNone.password = none) ∧
      ClusterClientBuilder.build ⟨.ok [nodeU1, nodeU2, nodeU3],
          builderParamsNone⟩ =
        .error ⟨.invalidClientConfig,
          "Cannot use different username among initial nodes."⟩ :=
  ⟨⟨rfl, rfl, rfl⟩, rfl⟩

/-- C2 (amended): password validation over a three-node list with no
caller-supplied password. When every node carries a password and the
three passwords are pairwise distinct, build fails with a configuration
error regardless of which node differs. When every node password equals
that of node A and the nodes moreover agree on username, protocol and TLS
mode and none is a local-socket node, build succeeds and the resolved
password is that of node A. -/
theorem build_password_validation {σ δ τ : Type} :
    (∀ (bp : BuilderParams σ δ τ) (a b c : ConnectionInfo)
        (pa pb pc : String),
        bp.password = none →
        a.redis.password = some pa → b.redis.password = some pb →
        c.redis.password = some pc →
        pa ≠ pb → pa ≠ pc → pb ≠ pc →
        ∃ e, ClusterClientBuilder.build ⟨.ok [a, b, c], bp⟩ = .error e ∧
          e.kind = .invalidClientConfig) ∧
    (∀ (bp : BuilderParams σ δ τ) (a b c : ConnectionInfo),
        bp.password = none → bp.username = none → bp.protocol = none →
        bp.tls = none →
        (∀ n ∈ [a, b, c], n.addr.isUnix = false ∧
          n.redis.password = a.redis.password ∧
          n.redis.username = a.redis.username ∧
          n.redis.protocol = a.redis.protocol ∧
          n.addr.tls_mode = a.addr.tls_mode) →
        ∃ cc, ClusterClientBuilder.build ⟨.ok [a, b, c], bp⟩ = .ok cc ∧
          cc.cluster_params.password = a.redis.password) := by
  constructor
  · intro bp a b c pa pb pc hbp ha hb hc hab hac hbc
    rcases hchk : checkNodes [a, b, c]
        (if bp.password = none then a.redis.password else none)
        (if bp.username = none then a.redis.username else none)
        (if bp.protocol = none then some a.redis.protocol else none)
        (if bp.tls = none then a.addr.tls_mode else none) with e2 | u
    · exact ⟨e2, by rw [build_cons_eq, hchk],
        checkNodes_error_kind _ _ _ _ _ _ hchk⟩
    · exfalso
      have hpw :=
        (nodeConsistent_of_checkNodes_ok _ _ _ _ _ hchk b (by simp)).2.1
      simp [hbp, ha, hb] at hpw
      exact hab hpw.symm
  · intro bp a b c hbp hbu hbpr hbt hcons
    have hok : checkNodes [a, b, c]
        (if bp.password = none then a.redis.password else none)
        (if bp.username = none then a.redis.username else none)
        (if bp.protocol = none then some a.redis.protocol else none)
        (if bp.tls = none then a.addr.tls_mode else none) = .ok () := by
      refine checkNodes_ok_of _ _ _ _ _ (fun n hn => ?_)
      obtain ⟨h1, h2, h3, h4, h5⟩ := hcons n hn
      exact consistent_of_agree bp a n h1 (Or.inl h2) (Or.inl h3)
        (Or.inl h4) (Or.inl h5)
    refine ⟨_, by rw [build_cons_eq, hok], ?_⟩
    simp [hbp]

/-- Witness for the amended C2: the pairwise-distinct list is rejected
and the all-equal list is accepted with password p resolved from node
0. -/
theorem build_password_validation_witness :
    (∃ e, ClusterClientBuilder.build ⟨.ok [nodeD1, nodeD2, nodeD3],
        builderParamsNone⟩ = .error e ∧ e.kind = .invalidClientConfig) ∧
      ∃ cc, ClusterClientBuilder.build ⟨.ok [nodeHost1, nodeHost2, nodeHost4],
          builderParamsNone⟩ = .ok cc ∧
        cc.cluster_params.password = nodeHost1.redis.password :=
  ⟨build_password_validation.1 builderParamsNone nodeD1 nodeD2 nodeD3
      "p1" "p2" "p3" rfl rfl rfl rfl (by decide) (by decide) (by decide),
    build_password_validation.2 builderParamsNone nodeHost1 nodeHost2
      nodeHost4 rfl rfl rfl rfl (by decide)⟩

/-- Builder parameters with caller-supplied credentials. -/
def builderParamsCred : BuilderParams Unit Unit Unit :=
  { builderParamsNone with password := some "cp", username := some "cu" }

/-- Nodes agreeing on credentials but not on protocol. -/
def nodeX1 : ConnectionInfo :=
  ⟨.tcp "h1" 6379, ⟨0, some "nu", some "x", .RESP3⟩⟩

/-- Second node of the distinct-protocol list. -/
def nodeX2 : ConnectionInfo :=
  ⟨.tcp "h2" 6379, ⟨0, some "nu", some "x", .RESP2⟩⟩

/-- Counterexample to C3: the caller set both credentials and they
conflict with the embedded credentials of every node, yet build still
fails, here on the protocol check, so the claim that build succeeds on
every such list is false. -/
theorem build_caller_credentials_counterexample :
    (builderParamsCred.password = some "cp" ∧
      builderParamsCred.username = some "cu" ∧
      nodeX1.redis.password ≠ builderParamsCred.password ∧
      nodeX2.redis.password ≠ builderParamsCred.password ∧
      nodeX1.redis.username ≠ builderParamsCred.username ∧
      nodeX2.redis.username ≠ builderParamsCred.username) ∧
      ClusterClientBuilder.build ⟨.ok [nodeX1, nodeX2], builderParamsCred⟩ =
        .error ⟨.invalidClientConfig,
          "Cannot use different protocol among initial nodes."⟩ :=
  ⟨⟨rfl, rfl, by decide, by decide, by decide, by decide⟩, rfl⟩

/-- C3 (amended): a caller-supplied credential takes precedence and turns
off the cross-check for that field entirely, so node values for it may
disagree with the caller and with each other; build then succeeds
whenever each remaining checked field that the caller left unset (the
other credential, protocol, TLS mode) agrees across the nodes and no
node is a local-socket node. -/
theorem build_caller_credentials_precedence {σ δ τ : Type} :
    (∀ (bp : BuilderParams σ δ τ) (p : String) (first : ConnectionInfo)
        (rest : List ConnectionInfo),
        bp.password = some p →
        (∀ n ∈ first :: rest, n.addr.isUnix = false ∧
          (bp.username = none →
            n.redis.username = first.redis.username) ∧
          (bp.protocol = none →
            n.redis.protocol = first.redis.protocol) ∧
          (bp.tls = none → n.addr.tls_mode = first.addr.tls_mode)) →
        ∃ cc, ClusterClientBuilder.build ⟨.ok (first :: rest), bp⟩ = .ok cc ∧
          cc.cluster_params.password = some p) ∧
    (∀ (bp : BuilderParams σ δ τ) (u : String) (first : ConnectionInfo)
        (rest : List ConnectionInfo),
        bp.username = some u →
        (∀ n ∈ first :: rest, n.addr.isUnix = false ∧
          (bp.password = none →
            n.redis.password = first.redis.password) ∧
          (bp.protocol = none →
            n.redis.protocol = first.redis.protocol) ∧
          (bp.tls = none → n.addr.tls_mode = first.addr.tls_mode)) →
        ∃ cc, ClusterClientBuilder.build ⟨.ok (first :: rest), bp⟩ = .ok cc ∧
          cc.cluster_params.username = some u) := by
  constructor
  · intro bp p first rest hp hcons
    have hok : checkNodes (first :: rest)
        (if bp.password = none then first.redis.password else none)
        (if bp.username = none then first.redis.username else none)
        (if bp.protocol = none then some first.redis.protocol else none)
        (if bp.tls = none then first.addr.tls_mode else none) = .ok () := by
      refine checkNodes_ok_of _ _ _ _ _ (fun n hn => ?_)
      obtain ⟨h1, h3, h4, h5⟩ := hcons n hn
      refine consistent_of_agree bp first n h1 (Or.inr (by simp [hp]))
        ?_ ?_ ?_
      · by_cases hb : bp.username = none
        · exact Or.inl (h3 hb)
        · exact Or.inr hb
      · by_cases hb : bp.protocol = none
        · exact Or.inl (h4 hb)
        · exact Or.inr hb
      · by_cases hb : bp.tls = none
        · exact Or.inl (h5 hb)
        · exact Or.inr hb
    refine ⟨_, by rw [build_cons_eq, hok], ?_⟩
    simp [hp]
  · intro bp u first rest hu hcons
    have hok : checkNodes (first :: rest)
        (if bp.password = none then first.redis.password else none)
        (if bp.username = none then first.redis.username else none)
        (if bp.protocol = none then some first.redis.protocol else none)
        (if bp.tls = none then first.addr.tls_mode else none) = .ok () := by
      refine checkNodes_ok_of _ _ _ _ _ (fun n hn => ?_)
      obtain ⟨h1, h2, h4, h5⟩ := hcons n hn
      refine consistent_of_agree bp first n h1 ?_
        (Or.inr (by simp [hu])) ?_ ?_
      · by_cases hb : bp.password = none
        · exact Or.inl (h2 hb)
        · exact Or.inr hb
      · by_cases hb : bp.protocol = none
        · exact Or.inl (h4 hb)
        · exact Or.inr hb
      · by_cases hb : bp.tls = none
        · exact Or.inl (h5 hb)
        · exact Or.inr hb
    refine ⟨_, by rw [build_cons_eq, hok], ?_⟩
    simp [hu]

/-- A node disagreeing with nodeU1 on both credentials while sharing its
protocol and TLS mode. -/
def nodeY2 : ConnectionInfo :=
  ⟨.tcp "h2" 6379, ⟨0, some "user2", some "q", .RESP2⟩⟩

/-- Witness for the amended C3: with both credentials caller-set, a
two-node list whose nodes disagree with the caller and with each other on
both password and username is accepted, resolving to the caller password
and the caller username. -/
theorem build_caller_credentials_precedence_witness :
    (∃ cc, ClusterClientBuilder.build ⟨.ok [nodeU1, nodeY2],
        builderParamsCred⟩ = .ok cc ∧
      cc.cluster_params.password = some "cp") ∧
      ∃ cc, ClusterClientBuilder.build ⟨.ok [nodeU1, nodeY2],
          builderParamsCred⟩ = .ok cc ∧
        cc.cluster_params.username = some "cu" :=
  ⟨build_caller_credentials_precedence.1 builderParamsCred "cp" nodeU1
      [nodeY2] rfl (by decide),
    build_caller_credentials_precedence.2 builderParamsCred "cu" nodeU1
      [nodeY2] rfl (by decide)⟩

/-- Witness for C6: the empty list is rejected at the all-unset builder
parameters. -/
theorem build_empty_rejected_witness :
    ClusterClientBuilder.build ⟨.ok [], builderParamsNone⟩ =
      .error ⟨.invalidClientConfig, "Initial nodes cannot be empty."⟩ :=
  build_empty_rejected builderParamsNone

/-- A sample resolved parameter record used to exercise with_config. -/
def clusterParamsSample : ClusterParams Unit Unit Unit :=
  { password := some "pw"
    username := some "us"
    read_from_replicas := true
    tls := some .secure
    retry_params := RetryParams.default
    tls_params := none
    connection_timeout := Duration.from_secs 2
    response_timeout := some (Duration.from_secs 3)
    protocol := some .RESP3
    async_push_sender := some ()
    tcp_settings := ()
    async_dns_resolver := none }

/-- A sample per-acquisition config that sets only connection_timeout and
the DNS resolver. -/
def clusterConfigSample : ClusterConfig Unit Unit :=
  { connection_timeout := some (Duration.from_secs 5)
    response_timeout := none
    async_push_sender := none
    async_dns_resolver := some () }

/-- Witness for C10: on the samples, the previously set response timeout
is erased, the connection timeout is overwritten, and the password is
untouched. -/
theorem with_config_spec_witness :
    (clusterParamsSample.with_config clusterConfigSample).response_timeout =
        none ∧
      (clusterParamsSample.with_config clusterConfigSample).connection_timeout =
        Duration.from_secs 5 ∧
      (clusterParamsSample.with_config clusterConfigSample).password =
        some "pw" :=
  ⟨(with_config_spec clusterParamsSample clusterConfigSample).1,
    (with_config_spec clusterParamsSample clusterConfigSample).2.1,
    (with_config_spec clusterParamsSample clusterConfigSample).2.2.2.2.1⟩

end RedisRs
